import Mathlib

/-!
Shallow embedding of the core of the `sw-helpers` service-worker caching
toolkit, and proofs of the specification claims about it.

Embedded source files:
* `src/packages/sw-runtime-caching/src/lib/request-wrapper.js` (`RequestWrapper`)
* `src/unnamed/part_001` (the cache-expiration `Plugin`)

JavaScript numbers are modelled as `JSNum` (an integer or NaN); option-bag
values that may be absent or non-numeric are modelled as `JSVal`.  Promise
resolution order matters only for `deleteFromCacheAndIDB`, whose
`await urls.forEach(async ...)` awaits `undefined`; its result is therefore
modelled as a pair of states: the state when the returned promise resolves
and the state after every started per-URL task has completed.
-/

/-- JavaScript number: an integer value or NaN.  (The source only ever adds,
multiplies, subtracts and compares; fractional values play no role in any
claim, so the numeric carrier is `Int`.) -/
inductive JSNum
  | nan
  | val (n : Int)
deriving DecidableEq, Repr

namespace JSNum

/-- JS truthiness of a number: `0` and `NaN` are falsy. -/
def truthy : JSNum → Bool
  | .nan => false
  | .val n => n != 0

/-- JS `+` on numbers: NaN propagates. -/
def add : JSNum → JSNum → JSNum
  | .val a, .val b => .val (a + b)
  | _, _ => .nan

/-- JS `*` on numbers: NaN propagates. -/
def mul : JSNum → JSNum → JSNum
  | .val a, .val b => .val (a * b)
  | _, _ => .nan

/-- JS `-` on numbers: NaN propagates. -/
def sub : JSNum → JSNum → JSNum
  | .val a, .val b => .val (a - b)
  | _, _ => .nan

/-- JS `<` on numbers: any comparison involving NaN is false. -/
def ltb : JSNum → JSNum → Bool
  | .val a, .val b => decide (a < b)
  | _, _ => false

/-- JS `>` on numbers: any comparison involving NaN is false. -/
def gtb : JSNum → JSNum → Bool
  | .val a, .val b => decide (b < a)
  | _, _ => false

end JSNum

/-- JS value as far as the expiration `Plugin` constructor can observe it:
a number, a string, or `undefined` (an absent option).  Other JS values
(objects, booleans) behave like `str` for every check the constructor makes
(truthiness and `typeof x !== 'number'`), so the carrier is sufficient. -/
inductive JSVal
  | num (j : JSNum)
  | str (s : String)
  | undef
deriving DecidableEq, Repr

namespace JSVal

/-- JS truthiness: numbers by `JSNum.truthy`, strings by non-emptiness,
`undefined` is falsy. -/
def truthy : JSVal → Bool
  | .num j => j.truthy
  | .str s => !s.isEmpty
  | .undef => false

/-- Models `typeof v === 'number'` (NaN is a number). -/
def isNumber : JSVal → Bool
  | .num _ => true
  | _ => false

/-- The numeric content, if any.  A constructed `Plugin` stores its raw
option values; storing only the numeric content is a faithful quotient
because validation rejects every truthy non-number, and the surviving
non-number values (falsy strings, `undefined`) are indistinguishable from
an absent option in every later use (all later uses are truthiness tests
or arithmetic guarded by a truthiness test). -/
def toNum : JSVal → Option JSNum
  | .num j => some j
  | _ => none

end JSVal

/-- Truthiness of a stored option value (`none` is `undefined`, hence falsy). -/
def optTruthy : Option JSNum → Bool
  | none => false
  | some j => j.truthy

/-- Response type, as exposed by the platform `Response.type`. -/
inductive ResType
  | basic
  | cors
  | opq
deriving DecidableEq, Repr

/-- Request: the cache key and network-call argument.  Only the URL is
relevant to any claim; `Vary`-sensitive matching is out of scope. -/
structure Request where
  url : String
deriving DecidableEq, Repr

/-- Response, carrying the fields the embedded code reads: `status` (for
`.ok`), `type`, the `Date` header (`headers.get('date')`, `none` when the
header is absent), `url` and a body (to distinguish distinct responses). -/
structure Response where
  status : Nat
  resType : ResType := .basic
  dateHeader : Option String := none
  url : String := ""
  body : String := ""
deriving DecidableEq, Repr

/-- Platform `response.ok`: status in the inclusive range 200–299. -/
def Response.ok (r : Response) : Bool :=
  200 ≤ r.status && r.status ≤ 299

/-- State of one named platform cache, keyed by `Request`. -/
structure CacheSt where
  entries : List (Request × Response)
deriving DecidableEq, Repr

/-- Platform `cache.match(request)`: the stored response for the request. -/
def cacheMatchRaw (st : CacheSt) (request : Request) : Option Response :=
  (st.entries.find? (fun e => decide (e.1 = request))).map (fun e => e.2)

/-- Platform `cache.put(request, response)`: replaces any entry stored
under the same request. -/
def cachePut (st : CacheSt) (request : Request) (response : Response) : CacheSt :=
  { entries := st.entries.filter (fun e => decide (e.1 ≠ request)) ++ [(request, response)] }

/-- Modelled from the spec: `constants.js` of `sw-runtime-caching` is not
under `src/`; per §6 the default cache name is the fixed prefix
concatenated with the worker registration scope. -/
def defaultCacheName (scope : String) : String :=
  "sw-runtime-caching-" ++ scope

/-- A plugin, as the `RequestWrapper` constructor sees it: an optional
callback per hook name.  The two observer hooks (`fetchDidFail`,
`cacheDidUpdate`) return nothing, so only their presence is recorded; the
wrapper's execution trace records the arguments each such callback is
invoked with.  `requestWillFetch` callbacks are modelled by their resolved
values (the source awaits each returned promise). -/
structure RWPlugin where
  requestWillFetch : Option (Request → Request) := none
  fetchDidFail : Bool := false
  cacheWillUpdate : Option (Request → Response → Bool) := none
  cacheDidUpdate : Bool := false
  cacheWillMatch : Option (Option Response → Option Response) := none

/-- A constructed `RequestWrapper`: the callback lists the constructor
builds from its `plugins` argument, plus the resolved cache name. -/
structure RequestWrapper where
  cacheName : String
  requestWillFetchCbs : List (Request → Request)
  fetchDidFailCount : Nat
  cacheWillUpdateCb : Option (Request → Response → Bool)
  cacheDidUpdateCount : Nat
  cacheWillMatchCb : Option (Option Response → Option Response)

/-- `RequestWrapper` constructor (`request-wrapper.js` lines 58–105):
collects each hook's callbacks across `plugins` in registration order, then
throws if the `cacheWillUpdate` (resp. `cacheWillMatch`) list exists with
length ≠ 1.  Errors are modelled by their `ErrorFactory` identifier string
(`error-factory.js` is not under `src/`; per the spec §6 identifiers are
stable strings). -/
def mkRequestWrapper (cacheName : Option String) (scope : String)
    (plugins : List RWPlugin) : Except String RequestWrapper :=
  let cwuCbs := plugins.filterMap RWPlugin.cacheWillUpdate
  let cwmCbs := plugins.filterMap RWPlugin.cacheWillMatch
  if cwuCbs.length ≠ 0 ∧ cwuCbs.length ≠ 1 then
    .error "multiple-cache-will-update-plugins"
  else if cwmCbs.length ≠ 0 ∧ cwmCbs.length ≠ 1 then
    .error "multiple-cache-will-match-plugins"
  else
    .ok { cacheName := cacheName.getD (defaultCacheName scope)
          requestWillFetchCbs := plugins.filterMap RWPlugin.requestWillFetch
          fetchDidFailCount := (plugins.filter RWPlugin.fetchDidFail).length
          cacheWillUpdateCb := cwuCbs.head?
          cacheDidUpdateCount := (plugins.filter RWPlugin.cacheDidUpdate).length
          cacheWillMatchCb := cwmCbs.head? }

/-- The `for (let callback of this.pluginCallbacks.requestWillFetch)` loop
of `RequestWrapper.fetch`: runs the callbacks in order, each receiving the
request produced by the previous one.  Returns the list of arguments the
callbacks received (in order) and the final request. -/
def runRequestWillFetch : List (Request → Request) → Request → List Request × Request
  | [], request => ([], request)
  | cb :: rest, request =>
    let next := cb request
    let res := runRequestWillFetch rest next
    (request :: res.1, res.2)

/-- Execution trace of `RequestWrapper.fetch`: the arguments each
`requestWillFetch` callback received, the request passed to the network,
the outcome, and the argument passed to each `fetchDidFail` callback. -/
structure FetchTrace where
  rwfArgs : List Request
  networkRequest : Request
  result : Except String Response
  fetchDidFailCalls : List Request
deriving Repr

/-- `RequestWrapper.fetch` (`request-wrapper.js` lines 179–203): rewrites
the request through every `requestWillFetch` callback, calls the network
with the final request, and on rejection invokes each `fetchDidFail`
callback with `{request}` — the loop variable, i.e. the rewritten request —
then rethrows.  The network is a parameter `net` (rejection = `.error`). -/
def RequestWrapper.fetch (w : RequestWrapper) (net : Request → Except String Response)
    (request : Request) : FetchTrace :=
  let rwf := runRequestWillFetch w.requestWillFetchCbs request
  let res := net rwf.2
  { rwfArgs := rwf.1
    networkRequest := rwf.2
    result := res
    fetchDidFailCalls :=
      match res with
      | .ok _ => []
      | .error _ => List.replicate w.fetchDidFailCount rwf.2 }

/-- `RequestWrapper.match` (`request-wrapper.js` lines 145–157; named
`matchRequest` here because `match` is a Lean keyword): raw cache match,
then the single `cacheWillMatch` callback, if registered, transforms the
result. -/
def RequestWrapper.matchRequest (w : RequestWrapper) (st : CacheSt)
    (request : Request) : Option Response :=
  let cachedResponse := cacheMatchRaw st request
  match w.cacheWillMatchCb with
  | some cb => cb cachedResponse
  | none => cachedResponse

/-- The cacheability decision of `fetchAndCache` (lines 242–248):
`response.ok` unless a `cacheWillUpdate` callback is registered, in which
case that callback decides. -/
def cacheableDecision (w : RequestWrapper) (request : Request) (response : Response) : Bool :=
  match w.cacheWillUpdateCb with
  | some cb => cb request response
  | none => response.ok

/-- Error raised by `fetchAndCache`: either the propagated network
rejection or a thrown `ErrorFactory` error, identified by its string. -/
inductive FACError
  | network (e : String)
  | thrown (identifier : String)
deriving DecidableEq, Repr

/-- Arguments of one `cacheDidUpdate` callback invocation. -/
structure CDUCall where
  cacheName : String
  oldResponse : Option Response
  newResponse : Response
deriving DecidableEq, Repr

/-- Execution trace of `RequestWrapper.fetchAndCache`: outcome, cache state
after the caching task (if any) has completed, whether the pre-put
`oldResponse` lookup was performed, and the `cacheDidUpdate` invocations. -/
structure FACResult where
  result : Except FACError Response
  cacheAfter : CacheSt
  oldLookupPerformed : Bool
  cacheDidUpdateCalls : List CDUCall
deriving Repr

/-- `RequestWrapper.fetchAndCache` (`request-wrapper.js` lines 236–288):
fetch; decide cacheability; if cacheable, clone the response (`clone()` of
an unconsumed response is value-identical, so the clone is modelled by the
same value), snapshot `oldResponse` via `this.match` iff the response is
not opaque and some `cacheDidUpdate` callback exists, `cache.put` under
`cacheKey || request`, then invoke each `cacheDidUpdate` callback; if not
cacheable and `waitOnCache`, throw `invalid-reponse-for-caching` (the
identifier string as spelled in the source).  `cacheAfter` is the state
after the caching task completes; with `waitOnCache = false` the promise
resolves before the put, which no claim depends on. -/
def RequestWrapper.fetchAndCache (w : RequestWrapper) (net : Request → Except String Response)
    (st : CacheSt) (request : Request) (waitOnCache : Bool) (cacheKey : Option Request) :
    FACResult :=
  let ft := w.fetch net request
  match ft.result with
  | .error e =>
    { result := .error (.network e), cacheAfter := st
      oldLookupPerformed := false, cacheDidUpdateCalls := [] }
  | .ok response =>
    let cacheable := cacheableDecision w request response
    if cacheable then
      let newResponse := response
      let doLookup := decide (response.resType ≠ .opq) && decide (w.cacheDidUpdateCount ≠ 0)
      let oldResponse := if doLookup then w.matchRequest st request else none
      let cacheRequest := cacheKey.getD request
      { result := .ok response
        cacheAfter := cachePut st cacheRequest newResponse
        oldLookupPerformed := doLookup
        cacheDidUpdateCalls :=
          List.replicate w.cacheDidUpdateCount
            { cacheName := w.cacheName, oldResponse := oldResponse, newResponse := newResponse } }
    else if !cacheable && waitOnCache then
      { result := .error (.thrown "invalid-reponse-for-caching"), cacheAfter := st
        oldLookupPerformed := false, cacheDidUpdateCalls := [] }
    else
      { result := .ok response, cacheAfter := st
        oldLookupPerformed := false, cacheDidUpdateCalls := [] }

/-- Timestamp record of the expiration plugin's IndexedDB store (one store
per cache name, key path `url`, non-unique index on `timestamp`). -/
structure IdbRec where
  url : String
  timestamp : Int
deriving DecidableEq, Repr

/-- Order of the IndexedDB `timestamp` index: by timestamp, ties broken by
the primary key (`url`), which is how IndexedDB orders index entries. -/
def idxLe (a b : IdbRec) : Prop :=
  a.timestamp < b.timestamp ∨ (a.timestamp = b.timestamp ∧ a.url ≤ b.url)

instance : DecidableRel idxLe := fun a b => by
  unfold idxLe; infer_instance

instance : IsTotal IdbRec idxLe where
  total a b := by
    unfold idxLe
    rcases lt_trichotomy a.timestamp b.timestamp with h | h | h
    · exact Or.inl (Or.inl h)
    · rcases le_total a.url b.url with hu | hu
      · exact Or.inl (Or.inr ⟨h, hu⟩)
      · exact Or.inr (Or.inr ⟨h.symm, hu⟩)
    · exact Or.inr (Or.inl h)

instance : IsTrans IdbRec idxLe where
  trans a b c hab hbc := by
    unfold idxLe at *
    rcases hab with h1 | ⟨e1, u1⟩
    · rcases hbc with h2 | ⟨e2, _⟩
      · exact Or.inl (h1.trans h2)
      · exact Or.inl (e2 ▸ h1)
    · rcases hbc with h2 | ⟨e2, u2⟩
      · exact Or.inl (e1 ▸ h2)
      · exact Or.inr ⟨e1.trans e2, u1.trans u2⟩

/-- A cursor walk over the `timestamp` index ascending visits the records
in `idxLe` order. -/
def idxSorted (recs : List IdbRec) : List IdbRec :=
  List.insertionSort idxLe recs

/-- Joint state of the platform cache (as the expiration plugin addresses
it: `cache.delete(url)` keys by URL) and of the plugin's IndexedDB store,
both for one fixed cache name.  Stores for distinct cache names live in
distinct databases and caches and never interact, so each claim about "every
cache name" is the universal over this state. -/
structure ExpSt where
  cache : List (String × Response)
  idb : List IdbRec
deriving DecidableEq, Repr

/-- The cached response for a URL, if any. -/
def expCacheMatch (st : ExpSt) (url : String) : Option Response :=
  (st.cache.find? (fun e => decide (e.1 = url))).map (fun e => e.2)

/-- The timestamp record for a URL, if any. -/
def idbRecFor (st : ExpSt) (url : String) : Option IdbRec :=
  st.idb.find? (fun r => decide (r.url = url))

/-- The expiration plugin, after construction: the two stored options. -/
structure Plugin where
  maxEntries : Option JSNum
  maxAgeSeconds : Option JSNum
deriving DecidableEq, Repr

/-- `Plugin` constructor (`src/unnamed/part_001` lines 49–63): requires at
least one *truthy* option (so `0` behaves like an absent option), then
rejects any truthy non-number.  Errors are modelled by their `ErrorFactory`
identifier string. -/
def Plugin.construct (maxEntries maxAgeSeconds : JSVal) : Except String Plugin :=
  if !(maxEntries.truthy || maxAgeSeconds.truthy) then
    .error "max-entries-or-age-required"
  else if maxEntries.truthy && !maxEntries.isNumber then
    .error "max-entries-must-be-number"
  else if maxAgeSeconds.truthy && !maxAgeSeconds.isNumber then
    .error "max-age-seconds-must-be-number"
  else
    .ok { maxEntries := maxEntries.toNum, maxAgeSeconds := maxAgeSeconds.toNum }

/-- `Plugin.isResponseFresh` (lines 161–185): with a response in hand and a
truthy `maxAgeSeconds`, read the `Date` header; when it is present and
truthy (non-empty), the response is stale exactly when
`parsedDate + maxAgeSeconds * 1000 < now`; a header parsing to NaN makes
that comparison false, so the response counts as fresh.  `parseDate` models
`new Date(s).getTime()` and `now` the already-defaulted `now` argument. -/
def Plugin.isResponseFresh (p : Plugin) (parseDate : String → JSNum)
    (cachedResponse : Option Response) (now : Int) : Bool :=
  match cachedResponse with
  | none => true
  | some r =>
    if optTruthy p.maxAgeSeconds then
      match r.dateHeader with
      | none => true
      | some s =>
        if s.isEmpty then true
        else
          let parsedDate := parseDate s
          if JSNum.ltb (JSNum.add parsedDate (JSNum.mul (p.maxAgeSeconds.getD .nan) (.val 1000)))
              (.val now) then
            false
          else true
    else true

/-- `Plugin.cacheWillMatch` (lines 134–140): the cached response if fresh,
else `null`. -/
def Plugin.cacheWillMatch (p : Plugin) (parseDate : String → JSNum)
    (cachedResponse : Option Response) (now : Int) : Option Response :=
  if p.isResponseFresh parseDate cachedResponse now then cachedResponse else none

/-- `Plugin.updateTimestamp` (lines 228–244): upsert of `{url, timestamp}`
in the store (IndexedDB `put` replaces the record with the same key). -/
def Plugin.updateTimestamp (st : ExpSt) (url : String) (now : Int) : ExpSt :=
  { st with idb := st.idb.filter (fun r => decide (r.url ≠ url)) ++ [⟨url, now⟩] }

/-- `Plugin.findOldEntries` (lines 294–319): walk the timestamp index
ascending, collecting the URLs whose timestamp is below
`now - maxAgeSeconds * 1000`. -/
def Plugin.findOldEntries (p : Plugin) (st : ExpSt) (now : Int) : List String :=
  let expireOlderThan := JSNum.sub (.val now) (JSNum.mul (p.maxAgeSeconds.getD .nan) (.val 1000))
  ((idxSorted st.idb).filter
    (fun r => JSNum.ltb (.val r.timestamp) expireOlderThan)).map IdbRec.url

/-- The cursor loop of `findExtraEntries` (lines 349–359): push the current
URL, then advance only while `initialCount - urls.length > maxEntries`. -/
def collectExtra (initialCount : Int) (maxEntries : JSNum) :
    List IdbRec → List String → List String
  | [], urls => urls
  | r :: rest, urls =>
    let urls2 := urls ++ [r.url]
    if JSNum.gtb (.val (initialCount - urls2.length)) maxEntries then
      collectExtra initialCount maxEntries rest urls2
    else urls2

/-- `Plugin.findExtraEntries` (lines 333–364): count the index; when the
count exceeds `maxEntries`, walk a fresh ascending cursor with the loop
above; otherwise no URL is collected. -/
def Plugin.findExtraEntries (p : Plugin) (st : ExpSt) : List String :=
  let initialCount : Int := (st.idb.length : Int)
  if JSNum.gtb (.val initialCount) (p.maxEntries.getD .nan) then
    collectExtra initialCount (p.maxEntries.getD .nan) (idxSorted st.idb) []
  else []

/-- Deletes the cache entry stored under `url` (platform `cache.delete`). -/
def cacheDeleteUrl (st : ExpSt) (url : String) : ExpSt :=
  { st with cache := st.cache.filter (fun e => decide (e.1 ≠ url)) }

/-- Deletes the timestamp record stored under `url`. -/
def idbDeleteUrl (st : ExpSt) (url : String) : ExpSt :=
  { st with idb := st.idb.filter (fun r => decide (r.url ≠ url)) }

/-- Result of `deleteFromCacheAndIDB`: `resolved` is the state at the
moment the returned promise resolves, `final` the state once every started
per-URL deletion task has run to completion. -/
structure DelResult where
  resolved : ExpSt
  final : ExpSt
deriving DecidableEq, Repr

/-- `Plugin.deleteFromCacheAndIDB` (lines 375–391).  The body runs
`await urls.forEach(async (url) => { await cache.delete(url); ...idb
delete... })`: `Array.prototype.forEach` returns `undefined`, so the
`await` suspends for a single microtask and does not wait for the per-URL
tasks.  Each task is suspended at `await cache.delete(url)` — an I/O
promise that settles on a later turn — so when the method's promise
resolves no deletion has taken effect and, in particular, no IndexedDB
delete transaction has even been opened: `resolved` is the unchanged input
state.  Once every task completes, each URL has been removed from the cache
and from the store (`final`); the URLs are pairwise distinct at every call
site, so the task interleaving cannot affect the final state. -/
def deleteFromCacheAndIDB (st : ExpSt) (urls : List String) : DelResult :=
  if urls.isEmpty then { resolved := st, final := st }
  else
    { resolved := st
      final := urls.foldl (fun s u => idbDeleteUrl (cacheDeleteUrl s u) u) st }

/-- `[...new Set(xs)]`: deduplication keeping first occurrences in order. -/
def setDedup (l : List String) : List String :=
  l.foldl (fun acc u => if u ∈ acc then acc else acc ++ [u]) []

/-- `Plugin.expireEntries` (lines 260–283): old entries (when
`maxAgeSeconds` is truthy) then extra entries (when `maxEntries` is
truthy), deduplicated, then `deleteFromCacheAndIDB`; returns the URL list
and the deletion outcome (the method's promise resolves together with
`deleteFromCacheAndIDB`'s). -/
def Plugin.expireEntries (p : Plugin) (st : ExpSt) (now : Int) :
    List String × DelResult :=
  let oldEntries := if optTruthy p.maxAgeSeconds then p.findOldEntries st now else []
  let extraEntries := if optTruthy p.maxEntries then p.findExtraEntries st else []
  let urls := setDedup (oldEntries ++ extraEntries)
  (urls, deleteFromCacheAndIDB st urls)

/-- C10: constructing an expiration `Plugin` with `maxEntries = 0` and no
`maxAgeSeconds` throws `max-entries-or-age-required` — the constructor
tests the options for truthiness, so the number `0` is treated exactly like
an absent option and never reaches the type check; likewise for
`maxAgeSeconds = 0`. -/
theorem plugin_construct_zero_treated_as_absent :
    Plugin.construct (.num (.val 0)) .undef = .error "max-entries-or-age-required" ∧
    Plugin.construct .undef (.num (.val 0)) = .error "max-entries-or-age-required" ∧
    Plugin.construct .undef .undef = .error "max-entries-or-age-required" ∧
    Plugin.construct (.num (.val 0)) (.num (.val 0)) = .error "max-entries-or-age-required" ∧
    (JSVal.num (.val 0)).isNumber = true :=
  ⟨rfl, rfl, rfl, rfl, rfl⟩

/-- C1 (evidence of the code bug): with `maxAgeSeconds = 1`, a cache
holding `/a` and a timestamp record `(/a, 0)`, `expireEntries` at
`now = 10000` returns `["/a"]`, yet at the moment its promise resolves the
state is unchanged — the response and the timestamp record for `/a` are
both still present (because `deleteFromCacheAndIDB` awaits
`urls.forEach(...)`, which is `undefined`).  Only after the started
deletion tasks run to completion are both stores empty, which is the
behaviour the claim (and the spec's invariant) describe. -/
theorem expireEntries_resolves_before_deletions :
    (Plugin.expireEntries { maxEntries := none, maxAgeSeconds := some (.val 1) }
        { cache := [("/a", { status := 200 })], idb := [⟨"/a", 0⟩] } 10000).1 = ["/a"] ∧
    (Plugin.expireEntries { maxEntries := none, maxAgeSeconds := some (.val 1) }
        { cache := [("/a", { status := 200 })], idb := [⟨"/a", 0⟩] } 10000).2.resolved =
      { cache := [("/a", { status := 200 })], idb := [⟨"/a", 0⟩] } ∧
    expCacheMatch (Plugin.expireEntries { maxEntries := none, maxAgeSeconds := some (.val 1) }
        { cache := [("/a", { status := 200 })], idb := [⟨"/a", 0⟩] } 10000).2.resolved "/a" =
      some { status := 200 } ∧
    idbRecFor (Plugin.expireEntries { maxEntries := none, maxAgeSeconds := some (.val 1) }
        { cache := [("/a", { status := 200 })], idb := [⟨"/a", 0⟩] } 10000).2.resolved "/a" =
      some ⟨"/a", 0⟩ ∧
    (Plugin.expireEntries { maxEntries := none, maxAgeSeconds := some (.val 1) }
        { cache := [("/a", { status := 200 })], idb := [⟨"/a", 0⟩] } 10000).2.final =
      { cache := [], idb := [] } := by
  decide

/-- C9: constructing a `RequestWrapper` fails with
`multiple-cache-will-update-plugins` exactly when two or more plugins
provide `cacheWillUpdate`; it fails with
`multiple-cache-will-match-plugins` exactly when at most one provides
`cacheWillUpdate` (that check runs first) and two or more provide
`cacheWillMatch`; with at most one of each, construction succeeds. -/
theorem mkRequestWrapper_transform_plugin_errors (cacheName : Option String) (scope : String)
    (plugins : List RWPlugin) :
    (mkRequestWrapper cacheName scope plugins = .error "multiple-cache-will-update-plugins" ↔
      2 ≤ (plugins.filterMap RWPlugin.cacheWillUpdate).length) ∧
    (mkRequestWrapper cacheName scope plugins = .error "multiple-cache-will-match-plugins" ↔
      ((plugins.filterMap RWPlugin.cacheWillUpdate).length ≤ 1 ∧
        2 ≤ (plugins.filterMap RWPlugin.cacheWillMatch).length)) ∧
    ((∃ w, mkRequestWrapper cacheName scope plugins = .ok w) ↔
      ((plugins.filterMap RWPlugin.cacheWillUpdate).length ≤ 1 ∧
        (plugins.filterMap RWPlugin.cacheWillMatch).length ≤ 1)) := by
  dsimp only [mkRequestWrapper]
  split_ifs with h1 h2
  · refine ⟨iff_of_true rfl (by omega), ?_, ?_⟩
    · simp only [Except.error.injEq]
      constructor
      · intro h; exact absurd h (by decide)
      · intro h; omega
    · constructor
      · rintro ⟨w, hw⟩; exact absurd hw (by simp)
      · intro h; omega
  · refine ⟨?_, iff_of_true rfl (by omega), ?_⟩
    · simp only [Except.error.injEq]
      constructor
      · intro h; exact absurd h (by decide)
      · intro h; omega
    · constructor
      · rintro ⟨w, hw⟩; exact absurd hw (by simp)
      · intro h; omega
  · refine ⟨?_, ?_, ?_⟩
    · constructor
      · intro h; exact absurd h (by simp)
      · intro h; omega
    · constructor
      · intro h; exact absurd h (by simp)
      · intro h; omega
    · exact iff_of_true ⟨_, rfl⟩ (by omega)

/-- The `requestWillFetch` loop yields, as the argument of the i-th
callback, the fold of the first i callbacks over the original request, and
as the final request the fold of all of them. -/
theorem runRequestWillFetch_eq (cbs : List (Request → Request)) (r : Request) :
    runRequestWillFetch cbs r =
      ((List.range cbs.length).map (fun i => (cbs.take i).foldl (fun a f => f a) r),
        cbs.foldl (fun a f => f a) r) := by
  induction cbs generalizing r with
  | nil => simp [runRequestWillFetch]
  | cons c rest ih =>
    simp only [runRequestWillFetch, ih (c r), List.length_cons, List.range_succ_eq_map,
      List.map_cons, List.map_map, List.foldl_cons, List.take_zero, List.foldl_nil,
      Prod.mk.injEq, List.cons.injEq, true_and]
    refine ⟨List.map_congr_left (fun i _ => ?_), trivial⟩
    simp [List.take_succ_cons]

/-- C6: `fetch` runs the `requestWillFetch` callbacks sequentially in
registration order — the i-th callback receives the request produced by
folding the previous callbacks over the original request — and the network
call is made with the fold of all callbacks; for two callbacks the network
therefore sees `P2 (P1 r)`. -/
theorem fetch_requestWillFetch_pipeline (w : RequestWrapper)
    (net : Request → Except String Response) (r : Request) :
    (w.fetch net r).networkRequest = w.requestWillFetchCbs.foldl (fun a f => f a) r ∧
    (w.fetch net r).rwfArgs =
      (List.range w.requestWillFetchCbs.length).map
        (fun i => (w.requestWillFetchCbs.take i).foldl (fun a f => f a) r) ∧
    (∀ p1 p2 : Request → Request, w.requestWillFetchCbs = [p1, p2] →
      (w.fetch net r).networkRequest = p2 (p1 r) ∧ (w.fetch net r).rwfArgs = [r, p1 r]) := by
  refine ⟨?_, ?_, ?_⟩
  · simp [RequestWrapper.fetch, runRequestWillFetch_eq]
  · simp [RequestWrapper.fetch, runRequestWillFetch_eq]
  · intro p1 p2 h
    simp [RequestWrapper.fetch, runRequestWillFetch_eq, h, List.range_succ]

/-- C2 (counterexample to the claim as stated): a wrapper with one
`requestWillFetch` callback rewriting the request and one `fetchDidFail`
plugin, against a rejecting network, invokes `fetchDidFail` with the
rewritten request — which differs from the original request the claim says
it receives. -/
theorem fetchDidFail_not_given_original_request :
    (RequestWrapper.fetch
        { cacheName := "c"
          requestWillFetchCbs := [fun _ => { url := "/rewritten" }]
          fetchDidFailCount := 1
          cacheWillUpdateCb := none
          cacheDidUpdateCount := 0
          cacheWillMatchCb := none }
        (fun _ => .error "net-down") { url := "/orig" }).fetchDidFailCalls =
      [{ url := "/rewritten" }] ∧
    ({ url := "/rewritten" } : Request) ≠ { url := "/orig" } := by
  exact ⟨rfl, by decide⟩

/-- C2 (amended): when the network call rejects, every `fetchDidFail`
callback is invoked with the final rewritten request — the request that was
passed to the network call — not with the original argument of `fetch`. -/
theorem fetch_fetchDidFail_gets_rewritten_request (w : RequestWrapper)
    (net : Request → Except String Response) (r : Request) (e : String)
    (h : (w.fetch net r).result = .error e) :
    (w.fetch net r).fetchDidFailCalls =
      List.replicate w.fetchDidFailCount ((w.fetch net r).networkRequest) := by
  dsimp only [RequestWrapper.fetch] at h ⊢
  cases hnet : net (runRequestWillFetch w.requestWillFetchCbs r).2 with
  | ok resp => rw [hnet] at h; exact absurd h (by simp)
  | error e2 => rfl

/-- Closed instance of `fetch_fetchDidFail_gets_rewritten_request` at a
concrete wrapper, network and request. -/
theorem fetch_fetchDidFail_gets_rewritten_request_witness :
    (RequestWrapper.fetch
        { cacheName := "c"
          requestWillFetchCbs := [fun _ => { url := "/rw" }]
          fetchDidFailCount := 2
          cacheWillUpdateCb := none
          cacheDidUpdateCount := 0
          cacheWillMatchCb := none }
        (fun _ => .error "net-down") { url := "/o" }).fetchDidFailCalls =
      List.replicate 2
        ((RequestWrapper.fetch
            { cacheName := "c"
              requestWillFetchCbs := [fun _ => { url := "/rw" }]
              fetchDidFailCount := 2
              cacheWillUpdateCb := none
              cacheDidUpdateCount := 0
              cacheWillMatchCb := none }
            (fun _ => .error "net-down") { url := "/o" }).networkRequest) :=
  fetch_fetchDidFail_gets_rewritten_request _ _ _ "net-down" rfl

/-- C3 (counterexample to the claim as stated): with no plugins, a network
404 and `waitOnCache = true`, `fetchAndCache` throws — but the identifier
of the thrown error is the string `invalid-reponse-for-caching` exactly as
spelled in the source (line 278), which is not the identifier
`invalid-response-for-caching` the claim names. -/
theorem fetchAndCache_throws_misspelled_identifier :
    (RequestWrapper.fetchAndCache
        { cacheName := "c", requestWillFetchCbs := [], fetchDidFailCount := 0
          cacheWillUpdateCb := none, cacheDidUpdateCount := 0, cacheWillMatchCb := none }
        (fun _ => .ok { status := 404 }) { entries := [] } { url := "/x" } true none).result =
      .error (.thrown "invalid-reponse-for-caching") ∧
    FACError.thrown "invalid-reponse-for-caching" ≠
      FACError.thrown "invalid-response-for-caching" :=
  ⟨rfl, by decide⟩

/-- C3 (amended): whenever the fetch succeeds, the response is judged not
cacheable and `waitOnCache` is true, `fetchAndCache` fails with the thrown
error whose identifier is the source's literal string
`invalid-reponse-for-caching`. -/
theorem fetchAndCache_uncacheable_waitOnCache_throws (w : RequestWrapper)
    (net : Request → Except String Response) (st : CacheSt) (r : Request)
    (ck : Option Request) (resp : Response)
    (hf : (w.fetch net r).result = .ok resp)
    (hc : cacheableDecision w r resp = false) :
    (w.fetchAndCache net st r true ck).result =
      .error (.thrown "invalid-reponse-for-caching") := by
  dsimp only [RequestWrapper.fetchAndCache]
  rw [hf]
  simp [hc]

/-- Closed instance of `fetchAndCache_uncacheable_waitOnCache_throws` at a
concrete wrapper, network (returning a 500) and request. -/
theorem fetchAndCache_uncacheable_waitOnCache_throws_witness :
    (RequestWrapper.fetchAndCache
        { cacheName := "c", requestWillFetchCbs := [], fetchDidFailCount := 0
          cacheWillUpdateCb := none, cacheDidUpdateCount := 0, cacheWillMatchCb := none }
        (fun _ => .ok { status := 500 }) { entries := [] } { url := "/y" } true none).result =
      .error (.thrown "invalid-reponse-for-caching") :=
  fetchAndCache_uncacheable_waitOnCache_throws
    { cacheName := "c", requestWillFetchCbs := [], fetchDidFailCount := 0
      cacheWillUpdateCb := none, cacheDidUpdateCount := 0, cacheWillMatchCb := none }
    (fun _ => .ok { status := 500 }) { entries := [] } { url := "/y" } none
    { status := 500 } rfl rfl

/-- C7: with no `cacheWillUpdate` callback registered, the cacheability
decision of `fetchAndCache` is exactly `response.ok` (status 2xx): an ok
response is written to the cache under the request and returned, a non-ok
response leaves the cache unchanged. -/
theorem fetchAndCache_default_cacheability (w : RequestWrapper)
    (net : Request → Except String Response) (st : CacheSt) (r : Request)
    (woc : Bool) (resp : Response)
    (hcwu : w.cacheWillUpdateCb = none)
    (hf : (w.fetch net r).result = .ok resp) :
    cacheableDecision w r resp = resp.ok ∧
    (resp.ok = true →
      (w.fetchAndCache net st r woc none).cacheAfter = cachePut st r resp ∧
      (w.fetchAndCache net st r woc none).result = .ok resp) ∧
    (resp.ok = false → (w.fetchAndCache net st r woc none).cacheAfter = st) := by
  have hcd : cacheableDecision w r resp = resp.ok := by
    simp [cacheableDecision, hcwu]
  refine ⟨hcd, ?_, ?_⟩
  · intro hok
    dsimp only [RequestWrapper.fetchAndCache]
    rw [hf]
    simp [hcd, hok]
  · intro hnok
    dsimp only [RequestWrapper.fetchAndCache]
    rw [hf]
    simp only [hcd, hnok]
    cases woc <;> simp

/-- Closed instance of `fetchAndCache_default_cacheability`: a 200 response
is cached and returned; a 404 response leaves the cache empty. -/
theorem fetchAndCache_default_cacheability_witness :
    ((RequestWrapper.fetchAndCache
        { cacheName := "c", requestWillFetchCbs := [], fetchDidFailCount := 0
          cacheWillUpdateCb := none, cacheDidUpdateCount := 0, cacheWillMatchCb := none }
        (fun _ => .ok { status := 200 }) { entries := [] } { url := "/z" } true none).cacheAfter =
      cachePut { entries := [] } { url := "/z" } { status := 200 } ∧
    (RequestWrapper.fetchAndCache
        { cacheName := "c", requestWillFetchCbs := [], fetchDidFailCount := 0
          cacheWillUpdateCb := none, cacheDidUpdateCount := 0, cacheWillMatchCb := none }
        (fun _ => .ok { status := 200 }) { entries := [] } { url := "/z" } true none).result =
      .ok { status := 200 }) ∧
    (RequestWrapper.fetchAndCache
        { cacheName := "c", requestWillFetchCbs := [], fetchDidFailCount := 0
          cacheWillUpdateCb := none, cacheDidUpdateCount := 0, cacheWillMatchCb := none }
        (fun _ => .ok { status := 404 }) { entries := [] } { url := "/z" } false none).cacheAfter =
      { entries := [] } :=
  ⟨(fetchAndCache_default_cacheability
      { cacheName := "c", requestWillFetchCbs := [], fetchDidFailCount := 0
        cacheWillUpdateCb := none, cacheDidUpdateCount := 0, cacheWillMatchCb := none }
      (fun _ => .ok { status := 200 }) { entries := [] } { url := "/z" } true
      { status := 200 } rfl rfl).2.1 rfl,
    (fetchAndCache_default_cacheability
      { cacheName := "c", requestWillFetchCbs := [], fetchDidFailCount := 0
        cacheWillUpdateCb := none, cacheDidUpdateCount := 0, cacheWillMatchCb := none }
      (fun _ => .ok { status := 404 }) { entries := [] } { url := "/z" } false
      { status := 404 } rfl rfl).2.2 rfl⟩

/-- C8 (counterexample to the claim as stated): a wrapper may legally
register both a `cacheDidUpdate` observer and a `cacheWillMatch` transform
(the expiration plugin does exactly this).  The pre-put snapshot is taken
with `this.match`, which routes the raw cached value through the transform:
with a transform mapping everything to `null` and a cache already holding
an old response for the request, the `cacheDidUpdate` callback receives
`oldResponse = none` even though a value is present in the cache before the
put. -/
theorem cacheDidUpdate_oldResponse_transformed :
    (RequestWrapper.fetchAndCache
        { cacheName := "c", requestWillFetchCbs := [], fetchDidFailCount := 0
          cacheWillUpdateCb := none, cacheDidUpdateCount := 1
          cacheWillMatchCb := some (fun _ => none) }
        (fun _ => .ok { status := 200, body := "new" })
        { entries := [({ url := "/x" }, { status := 200, body := "old" })] }
        { url := "/x" } true none).cacheDidUpdateCalls =
      [{ cacheName := "c", oldResponse := none
         newResponse := { status := 200, body := "new" } }] ∧
    cacheMatchRaw { entries := [({ url := "/x" }, { status := 200, body := "old" })] }
        { url := "/x" } = some { status := 200, body := "old" } ∧
    (none : Option Response) ≠ some { status := 200, body := "old" } :=
  ⟨rfl, rfl, by decide⟩

/-- C8 (amended): on a cache write, the pre-put lookup happens exactly when
the new response is not opaque and at least one `cacheDidUpdate` callback
is registered; every `cacheDidUpdate` callback then receives as
`oldResponse` the result of the wrapper's `match` on the pre-put state —
the raw cached value passed through the `cacheWillMatch` transform when one
is registered, and exactly the raw pre-put cached value when none is. -/
theorem fetchAndCache_oldResponse_via_match (w : RequestWrapper)
    (net : Request → Except String Response) (st : CacheSt) (r : Request)
    (woc : Bool) (ck : Option Request) (resp : Response)
    (hf : (w.fetch net r).result = .ok resp)
    (hc : cacheableDecision w r resp = true) :
    (w.fetchAndCache net st r woc ck).oldLookupPerformed =
      (decide (resp.resType ≠ .opq) && decide (w.cacheDidUpdateCount ≠ 0)) ∧
    (w.fetchAndCache net st r woc ck).cacheDidUpdateCalls =
      List.replicate w.cacheDidUpdateCount
        { cacheName := w.cacheName
          oldResponse :=
            if decide (resp.resType ≠ .opq) && decide (w.cacheDidUpdateCount ≠ 0) then
              w.matchRequest st r
            else none
          newResponse := resp } ∧
    (w.cacheWillMatchCb = none → w.matchRequest st r = cacheMatchRaw st r) := by
  refine ⟨?_, ?_, ?_⟩
  · dsimp only [RequestWrapper.fetchAndCache]
    rw [hf]
    simp [hc]
  · dsimp only [RequestWrapper.fetchAndCache]
    rw [hf]
    simp [hc]
  · intro hcwm
    simp [RequestWrapper.matchRequest, hcwm]

/-- Closed instance of `fetchAndCache_oldResponse_via_match`: with one
`cacheDidUpdate` plugin, no transform, and an old response in the cache,
the lookup happens and the callback receives that old response. -/
theorem fetchAndCache_oldResponse_via_match_witness :
    (RequestWrapper.fetchAndCache
        { cacheName := "c", requestWillFetchCbs := [], fetchDidFailCount := 0
          cacheWillUpdateCb := none, cacheDidUpdateCount := 1, cacheWillMatchCb := none }
        (fun _ => .ok { status := 200, body := "new" })
        { entries := [({ url := "/w" }, { status := 200, body := "old" })] }
        { url := "/w" } true none).oldLookupPerformed = true ∧
    (RequestWrapper.fetchAndCache
        { cacheName := "c", requestWillFetchCbs := [], fetchDidFailCount := 0
          cacheWillUpdateCb := none, cacheDidUpdateCount := 1, cacheWillMatchCb := none }
        (fun _ => .ok { status := 200, body := "new" })
        { entries := [({ url := "/w" }, { status := 200, body := "old" })] }
        { url := "/w" } true none).cacheDidUpdateCalls =
      [{ cacheName := "c", oldResponse := some { status := 200, body := "old" }
         newResponse := { status := 200, body := "new" } }] :=
  ⟨(fetchAndCache_oldResponse_via_match
      { cacheName := "c", requestWillFetchCbs := [], fetchDidFailCount := 0
        cacheWillUpdateCb := none, cacheDidUpdateCount := 1, cacheWillMatchCb := none }
      (fun _ => .ok { status := 200, body := "new" })
      { entries := [({ url := "/w" }, { status := 200, body := "old" })] }
      { url := "/w" } true none { status := 200, body := "new" } rfl rfl).1,
    (fetchAndCache_oldResponse_via_match
      { cacheName := "c", requestWillFetchCbs := [], fetchDidFailCount := 0
        cacheWillUpdateCb := none, cacheDidUpdateCount := 1, cacheWillMatchCb := none }
      (fun _ => .ok { status := 200, body := "new" })
      { entries := [({ url := "/w" }, { status := 200, body := "old" })] }
      { url := "/w" } true none { status := 200, body := "new" } rfl rfl).2.1⟩

/-- The freshness rule exactly as the claim words it: a response with no
`Date` header, or whose header parses to NaN, is fresh; otherwise it is
fresh iff `parsedDate + maxAgeSeconds * 1000 ≥ now`. -/
def claimFresh (m : Int) (parseDate : String → JSNum) (r : Response) (now : Int) : Bool :=
  match r.dateHeader with
  | none => true
  | some s =>
    match parseDate s with
    | .nan => true
    | .val t => decide (now ≤ t + m * 1000)

/-- C5: for a plugin configured with a (truthy) numeric `maxAgeSeconds`,
`cacheWillMatch` returns the cached response exactly when it is fresh in
the claim's sense, and `none` otherwise.  `parseDate` models the platform's
date parsing; the hypothesis `parseDate "" = nan` records that an empty
header value is unparseable (the code short-circuits on the empty string,
the claim routes it through NaN — the two agree under this fact). -/
theorem cacheWillMatch_freshness (p : Plugin) (parseDate : String → JSNum)
    (r : Response) (now m : Int)
    (hma : p.maxAgeSeconds = some (.val m)) (hm : m ≠ 0)
    (hpd : parseDate "" = .nan) :
    p.cacheWillMatch parseDate (some r) now =
      (if claimFresh m parseDate r now then some r else none) := by
  obtain ⟨rs, rt, rh, ru, rb⟩ := r
  unfold Plugin.cacheWillMatch Plugin.isResponseFresh claimFresh
  rw [hma]
  have htr : optTruthy (some (JSNum.val m)) = true := by
    simp [optTruthy, JSNum.truthy, hm]
  rw [htr]
  simp only [Option.getD_some, if_true]
  cases rh with
  | none => rfl
  | some s =>
    by_cases hs : s = ""
    · subst hs
      simp [hpd, String.isEmpty_iff]
    · have hse : s.isEmpty = false := by
        rw [Bool.eq_false_iff]
        intro hcon
        exact hs ((String.isEmpty_iff s).mp hcon)
      simp only [hse, Bool.false_eq_true, if_false]
      dsimp only
      set q := parseDate s with hq
      clear_value q
      cases q with
      | nan => simp [JSNum.add, JSNum.mul, JSNum.ltb]
      | val t =>
        by_cases hlt : t + m * 1000 < now
        · have h1 : JSNum.ltb (JSNum.add (JSNum.val t) (JSNum.mul (JSNum.val m) (JSNum.val 1000)))
              (JSNum.val now) = true := by
            simp only [JSNum.mul, JSNum.add, JSNum.ltb, decide_eq_true_eq]
            omega
          have h2 : decide (now ≤ t + m * 1000) = false := by
            simp only [decide_eq_false_iff_not]
            omega
          simp only [h1]
          simp [h2]
        · have h1 : JSNum.ltb (JSNum.add (JSNum.val t) (JSNum.mul (JSNum.val m) (JSNum.val 1000)))
              (JSNum.val now) = false := by
            simp only [JSNum.mul, JSNum.add, JSNum.ltb, decide_eq_false_iff_not]
            omega
          have h2 : decide (now ≤ t + m * 1000) = true := by
            simp only [decide_eq_true_eq]
            omega
          simp only [h1]
          simp [h2]

/-- Closed instance of `cacheWillMatch_freshness`: a response whose `Date`
header parses to time 5 is stale at `now = 20000` under
`maxAgeSeconds = 10`, so `cacheWillMatch` returns `none`. -/
theorem cacheWillMatch_freshness_witness :
    Plugin.cacheWillMatch { maxEntries := none, maxAgeSeconds := some (.val 10) }
      (fun s => if s = "d" then .val 5 else .nan)
      (some { status := 200, dateHeader := some "d" }) 20000 = none :=
  cacheWillMatch_freshness { maxEntries := none, maxAgeSeconds := some (.val 10) }
    (fun s => if s = "d" then .val 5 else .nan)
    { status := 200, dateHeader := some "d" } 20000 10 rfl (by decide) (by decide)

/-- The cursor loop of `findExtraEntries` extends its accumulator with the
URLs of the upcoming records until the count of not-yet-visited records
drops to `maxEntries`: starting below the bound `c - mv`, it returns the
accumulator extended to exactly `(c - mv).toNat` collected URLs (or all
remaining URLs if the index is exhausted first). -/
theorem collectExtra_eq (c mv : Int) (recs : List IdbRec) :
    ∀ acc : List String, (acc.length : Int) < c - mv →
      collectExtra c (.val mv) recs acc =
        acc ++ (recs.map IdbRec.url).take ((c - mv).toNat - acc.length) := by
  induction recs with
  | nil =>
    intro acc h
    simp [collectExtra]
  | cons r rest ih =>
    intro acc h
    simp only [collectExtra]
    by_cases hcond : mv < c - ((acc ++ [r.url]).length : Int)
    · rw [if_pos (by simpa [JSNum.gtb] using hcond)]
      rw [ih (acc ++ [r.url]) (by simp at hcond ⊢; omega)]
      have hsplit : (c - mv).toNat - acc.length =
          ((c - mv).toNat - (acc ++ [r.url]).length) + 1 := by
        simp only [List.length_append, List.length_cons, List.length_nil] at hcond ⊢
        omega
      rw [List.map_cons, hsplit, List.take_succ_cons, List.append_assoc]
      rfl
    · rw [if_neg (by simpa [JSNum.gtb] using hcond)]
      have hone : (c - mv).toNat - acc.length = 1 := by
        simp only [List.length_append, List.length_cons, List.length_nil] at hcond ⊢
        omega
      rw [List.map_cons, hone, List.take_succ_cons, List.take_zero]

/-- C4: for a plugin with `maxEntries = N`, `findExtraEntries` returns the
empty list when the store holds at most `N` records, and otherwise returns
the URLs of the first `count − N` records in ascending timestamp-index
order — the least-recently-stored records first; `idxSorted` is a
timestamp-sorted permutation of the store, so these are exactly the `M`
URLs with the smallest timestamps when `count = N + M`. -/
theorem findExtraEntries_lru (p : Plugin) (st : ExpSt) (n : Nat)
    (hME : p.maxEntries = some (.val (n : Int))) :
    (st.idb.length ≤ n → p.findExtraEntries st = []) ∧
    (n < st.idb.length →
      p.findExtraEntries st =
        ((idxSorted st.idb).map IdbRec.url).take (st.idb.length - n)) ∧
    List.Sorted (fun a b : IdbRec => a.timestamp ≤ b.timestamp) (idxSorted st.idb) ∧
    (idxSorted st.idb).Perm st.idb := by
  refine ⟨?_, ?_, ?_, ?_⟩
  · intro hle
    unfold Plugin.findExtraEntries
    rw [hME]
    simp only [Option.getD_some]
    rw [if_neg (by simp [JSNum.gtb]; exact_mod_cast hle)]
  · intro hlt
    unfold Plugin.findExtraEntries
    rw [hME]
    simp only [Option.getD_some]
    rw [if_pos (by simp [JSNum.gtb]; exact_mod_cast hlt)]
    rw [collectExtra_eq _ _ _ [] (by simp; exact_mod_cast hlt)]
    have hcast : (((st.idb.length : Int)) - (n : Int)).toNat = st.idb.length - n := by
      omega
    simp [hcast]
  · have hs := List.sorted_insertionSort idxLe st.idb
    unfold idxSorted
    exact hs.imp (fun hab => by
      rcases hab with h | ⟨h, _⟩
      · exact le_of_lt h
      · exact le_of_eq h)
  · unfold idxSorted
    exact List.perm_insertionSort idxLe st.idb

/-- Closed instance of `findExtraEntries_lru`: with `maxEntries = 2` and
three records, the single URL with the smallest timestamp is returned. -/
theorem findExtraEntries_lru_witness :
    Plugin.findExtraEntries { maxEntries := some (.val 2), maxAgeSeconds := none }
      { cache := [], idb := [⟨"/c", 30⟩, ⟨"/a", 10⟩, ⟨"/b", 20⟩] } = ["/a"] :=
  (findExtraEntries_lru { maxEntries := some (.val 2), maxAgeSeconds := none }
    { cache := [], idb := [⟨"/c", 30⟩, ⟨"/a", 10⟩, ⟨"/b", 20⟩] } 2 rfl).2.1 (by decide)

/-- Closed instance of `fetch_requestWillFetch_pipeline` with two concrete
rewriting callbacks: the network sees `P2 (P1 r)` and the callbacks saw
`r` and `P1 r` respectively. -/
theorem fetch_requestWillFetch_pipeline_witness :
    (RequestWrapper.fetch
        { cacheName := "c"
          requestWillFetchCbs := [fun q => { url := q.url ++ "1" }, fun q => { url := q.url ++ "2" }]
          fetchDidFailCount := 0, cacheWillUpdateCb := none, cacheDidUpdateCount := 0
          cacheWillMatchCb := none }
        (fun _ => .ok { status := 200 }) { url := "/r" }).networkRequest = { url := "/r12" } ∧
    (RequestWrapper.fetch
        { cacheName := "c"
          requestWillFetchCbs := [fun q => { url := q.url ++ "1" }, fun q => { url := q.url ++ "2" }]
          fetchDidFailCount := 0, cacheWillUpdateCb := none, cacheDidUpdateCount := 0
          cacheWillMatchCb := none }
        (fun _ => .ok { status := 200 }) { url := "/r" }).rwfArgs =
      [{ url := "/r" }, { url := "/r1" }] :=
  ⟨((fetch_requestWillFetch_pipeline
      { cacheName := "c"
        requestWillFetchCbs := [fun q => { url := q.url ++ "1" }, fun q => { url := q.url ++ "2" }]
        fetchDidFailCount := 0, cacheWillUpdateCb := none, cacheDidUpdateCount := 0
        cacheWillMatchCb := none }
      (fun _ => .ok { status := 200 }) { url := "/r" }).2.2
      (fun q => { url := q.url ++ "1" }) (fun q => { url := q.url ++ "2" }) rfl).1,
    ((fetch_requestWillFetch_pipeline
      { cacheName := "c"
        requestWillFetchCbs := [fun q => { url := q.url ++ "1" }, fun q => { url := q.url ++ "2" }]
        fetchDidFailCount := 0, cacheWillUpdateCb := none, cacheDidUpdateCount := 0
        cacheWillMatchCb := none }
      (fun _ => .ok { status := 200 }) { url := "/r" }).2.2
      (fun q => { url := q.url ++ "1" }) (fun q => { url := q.url ++ "2" }) rfl).2⟩

/-- Closed instance of `mkRequestWrapper_transform_plugin_errors`: two
plugins that both provide `cacheWillUpdate` make construction fail with
`multiple-cache-will-update-plugins`. -/
theorem mkRequestWrapper_transform_plugin_errors_witness :
    mkRequestWrapper none "s"
      [{ cacheWillUpdate := some (fun _ r => r.ok) },
        { cacheWillUpdate := some (fun _ r => r.ok) }] =
      .error "multiple-cache-will-update-plugins" :=
  (mkRequestWrapper_transform_plugin_errors none "s"
    [{ cacheWillUpdate := some (fun _ r => r.ok) },
      { cacheWillUpdate := some (fun _ r => r.ok) }]).1.mpr (by decide)
